import Mathlib

/-!
Shallow embedding of the client-side form logic of this repository:
`erpnext/assets/doctype/asset/asset.js` (the Asset form script and the
Sales Order form script that shares the file) and
`erpnext/erpnext_integrations/doctype/taxjar_settings/taxjar_settings.js`.

Conventions of the embedding:
* JavaScript numbers holding monetary amounts, quantities and percentages
  are modelled as rationals.
* frappe `flt(x)` with no precision argument is the numeric coercion and is
  the identity on already-numeric values; `flt(x, p)` rounds to `p` decimal
  places and is modelled by `fltPrec`.
* The framework call `precision(field)` returns form metadata (the float
  precision configured for the field); it is passed to the embedded
  functions as an explicit parameter.
* Dates are opaque values modelled as integers; the framework date helper
  `frappe.datetime.add_months` is passed as an explicit function parameter
  where the source uses it, since its arithmetic is owned by the framework.
* A `frappe.msgprint` call is recorded as a `Msg` value; a
  `frappe.db.get_doc` / `frappe.db.get_value` request is recorded as a
  pending-request value; a thrown JavaScript exception is recorded by
  `JsResult.thrown` together with the form state and messages the handler
  had produced up to the point of the throw.
-/

/-- frappe `flt(x, p)`: round `x` to `p` decimal places. -/
def fltPrec (x : ℚ) (p : ℕ) : ℚ := ((round (x * 10 ^ p) : ℤ) : ℚ) / 10 ^ p

/-- A user-facing modal message produced by `frappe.msgprint` or
`frappe.throw` (title and message body). -/
structure Msg where
  title : String
  message : String
deriving DecidableEq

/-- Outcome of a JavaScript handler: normal completion with a value, or an
uncaught exception; `sofar` records the state the handler had already
produced when the exception was raised. -/
inductive JsResult (α : Type) where
  | ok (value : α)
  | thrown (err : String) (sofar : α)
deriving DecidableEq

/-- Row of the `finance_books` child table of the Asset form
(`Asset Finance Book`), with the fields the embedded handlers read. -/
structure FinanceBook where
  depreciation_method : String
  depreciation_start_date : Int
  frequency_of_depreciation : Int
deriving DecidableEq

/-- Row of the `schedules` child table of the Asset form
(`Depreciation Schedule`), with the fields the embedded handlers read or
write.  `journal_entry` is `true` when the row links a posting journal
entry. -/
structure ScheduleRow where
  schedule_date : Int
  depreciation_amount : ℚ
  accumulated_depreciation_amount : ℚ
  journal_entry : Bool
  finance_book_id : Nat
deriving DecidableEq

/-- Inner loop of `erpnext.asset.set_accumulated_depreciation`
(asset.js lines 646-653): walk the schedule rows in list order carrying
the running total `acc`; on every row of the given finance book add the
row depreciation amount to `acc` and store it in
`accumulated_depreciation_amount`. -/
def set_accumulated_depreciation_go (finance_book_id : Nat) (acc : ℚ) :
    List ScheduleRow → List ScheduleRow
  | [] => []
  | row :: rest =>
    if row.finance_book_id = finance_book_id then
      let acc2 := acc + row.depreciation_amount
      { row with accumulated_depreciation_amount := acc2 } ::
        set_accumulated_depreciation_go finance_book_id acc2 rest
    else
      row :: set_accumulated_depreciation_go finance_book_id acc rest

/-- `erpnext.asset.set_accumulated_depreciation` (asset.js lines 641-654).
`finance_book_id` is 1-based; the source reads
`frm.doc.finance_books[Number(finance_book_id) - 1].depreciation_method`,
which throws a TypeError when the index misses the list (modelled by
`none`).  When the method is not "Manual" the function returns without
touching any schedule row; otherwise it runs the accumulation loop
starting from `flt(frm.doc.opening_accumulated_depreciation)`. -/
def set_accumulated_depreciation (finance_books : List FinanceBook)
    (opening_accumulated_depreciation : ℚ)
    (schedules : List ScheduleRow) (finance_book_id : Nat) :
    Option (List ScheduleRow) :=
  if finance_book_id = 0 then none
  else
    (finance_books[finance_book_id - 1]?).map (fun fb =>
      if fb.depreciation_method ≠ "Manual" then schedules
      else set_accumulated_depreciation_go finance_book_id
        opening_accumulated_depreciation schedules)

/-- Written from the words of claim C1 (not from the source): every row of
the given finance book receives `opening_accumulated_depreciation` plus
the sum of `depreciation_amount` over all rows of the same finance book up
to and including that row, in list order; other rows are unchanged. -/
def C1_spec_result (opening : ℚ) (schedules : List ScheduleRow)
    (finance_book_id : Nat) : List ScheduleRow :=
  schedules.mapIdx (fun i row =>
    if row.finance_book_id = finance_book_id then
      { row with accumulated_depreciation_amount :=
          opening +
            (((schedules.take (i + 1)).filter
                (fun s => s.finance_book_id = finance_book_id)).map
              (fun s => s.depreciation_amount)).sum }
    else row)

/-- The Asset form document, with the fields read by `refresh` and
`setup_chart`.  An unset link field (for example `journal_entry` on a
schedule row) is modelled by its falsy value. -/
structure Asset where
  gross_purchase_amount : ℚ
  opening_accumulated_depreciation : ℚ
  calculate_depreciation : Bool
  status : String
  purchase_date : Int
  disposal_date : Int
  creation : Int
  finance_books : List FinanceBook
  schedules : List ScheduleRow
deriving DecidableEq

/-- One row answered by the `get_manual_depreciation_entries` server call
(asset.js lines 253-256): a posting date and a depreciation value. -/
structure DeprEntry where
  posting_date : Int
  value : ℚ
deriving DecidableEq

/-- The chart value pushed for one schedule row by `setup_chart`
(asset.js lines 234-246): `flt(gross_purchase_amount -
accumulated_depreciation_amount, precision)`, except that a row without a
journal entry pushes `null` when the asset status is "Scrapped" or
"Sold". -/
def scheduleChartPoint (a : Asset) (prec : ℕ) (v : ScheduleRow) : Option ℚ :=
  let asset_value := fltPrec
    (a.gross_purchase_amount - v.accumulated_depreciation_amount) prec
  if v.journal_entry then some asset_value
  else if a.status = "Scrapped" ∨ a.status = "Sold" then none
  else some asset_value

/-- One iteration of the manual-depreciation-entries loop of `setup_chart`
(asset.js lines 258-262): push `flt(last_asset_value - v.value,
precision)` where `last_asset_value` is the last pushed value.  A `null`
array element would coerce to `0` in the JavaScript subtraction, hence the
`getD 0`; in this branch no `null` is ever pushed. -/
def manualDeprStep (prec : ℕ) (vals : List (Option ℚ)) (v : DeprEntry) :
    List (Option ℚ) :=
  let last_asset_value := (vals.getLast?.getD (some 0)).getD 0
  vals ++ [some (fltPrec (last_asset_value - v.value) prec)]

/-- `setup_chart` (asset.js lines 216-282).  Returns `none` when no graph
is rendered: on the early return for more than one finance book (lines
217-219), and where the JavaScript would throw a TypeError reading
`finance_books[0]` of an empty list (line 227).  Otherwise
`some (x_intervals, asset_values)`, the label and value series handed to
`frm.dashboard.render_graph` (lines 270-281).  `addMonths` is the
framework helper `frappe.datetime.add_months`; `depr_entries` is the
answer of the `get_manual_depreciation_entries` server call awaited in the
branch without `calculate_depreciation`. -/
def setup_chart (a : Asset) (prec : ℕ) (addMonths : Int → Int → Int)
    (depr_entries : List DeprEntry) : Option (List Int × List (Option ℚ)) :=
  if 1 < a.finance_books.length then none
  else
    let x_intervals : List Int := [a.purchase_date]
    let asset_values : List (Option ℚ) := [some a.gross_purchase_amount]
    let body : Option (List Int × List (Option ℚ)) :=
      if a.calculate_depreciation then
        (if a.opening_accumulated_depreciation ≠ 0 then
          (a.finance_books[0]?).map (fun fb =>
            (x_intervals ++ [addMonths fb.depreciation_start_date
                (-1 * fb.frequency_of_depreciation)],
             asset_values ++ [some (fltPrec (a.gross_purchase_amount -
                a.opening_accumulated_depreciation) prec)]))
         else some (x_intervals, asset_values)).map (fun p =>
          (p.1 ++ a.schedules.map (fun v => v.schedule_date),
           p.2 ++ a.schedules.map (scheduleChartPoint a prec)))
      else
        let p :=
          if a.opening_accumulated_depreciation ≠ 0 then
            (x_intervals ++ [a.creation],
             asset_values ++ [some (fltPrec (a.gross_purchase_amount -
                a.opening_accumulated_depreciation) prec)])
          else (x_intervals, asset_values)
        some (p.1 ++ depr_entries.map (fun v => v.posting_date),
              depr_entries.foldl (manualDeprStep prec) p.2)
    body.map (fun p =>
      if a.status = "Scrapped" ∨ a.status = "Sold" then
        (p.1 ++ [a.disposal_date], p.2 ++ [some 0])
      else p)

/-- Written from the words of claim C2 (not from the source): each
schedule row contributes `gross_purchase_amount` minus the row
`accumulated_depreciation_amount`, rounded to the precision of
`gross_purchase_amount`, except that a row without a journal entry
contributes null when the status is "Scrapped" or "Sold". -/
def C2_spec_point (a : Asset) (prec : ℕ) (r : ScheduleRow) : Option ℚ :=
  if r.journal_entry = false ∧ (a.status = "Scrapped" ∨ a.status = "Sold") then
    none
  else
    some (fltPrec (a.gross_purchase_amount - r.accumulated_depreciation_amount)
      prec)

/-- The framework helper `frappe.scrub` (lower-case the label and replace
spaces by underscores), modelled on the two doctype labels the Asset form
passes to it (asset.js line 514). -/
def scrub (s : String) : String :=
  if s = "Purchase Receipt" then "purchase_receipt"
  else if s = "Purchase Invoice" then "purchase_invoice"
  else s

/-- An item row of a purchase document, with the fields
`set_values_from_purchase_doc` reads.  `asset_location = ""` is an unset
(falsy) link. -/
structure PurchaseDocItem where
  item_code : String
  qty : ℚ
  valuation_rate : ℚ
  cost_center : String
  asset_location : String
deriving DecidableEq

/-- A purchase document (Purchase Receipt or Purchase Invoice) as answered
by `frappe.db.get_doc`, with the fields `set_values_from_purchase_doc`
reads.  `bill_date = none` is an unset (falsy) date. -/
structure PurchaseDoc where
  company : String
  bill_date : Option Int
  posting_date : Int
  items : List PurchaseDocItem
  cost_center : String
deriving DecidableEq

/-- The Asset form fields touched by the purchase-document handlers
(asset.js lines 468-532).  The empty string is the falsy value of an
unset link field; `available_for_use_date = none` is an unset date. -/
structure AssetForm where
  company : String
  purchase_date : Int
  available_for_use_date : Option Int
  is_existing_asset : Bool
  item_code : String
  purchase_receipt : String
  purchase_invoice : String
  gross_purchase_amount : ℚ
  purchase_receipt_amount : ℚ
  asset_quantity : ℚ
  cost_center : String
  location : String
deriving DecidableEq

/-- `frm.set_value(doctype_field, '')` for the scrubbed doctype field name
(asset.js line 515).  The field-change handler this set_value re-triggers
is a no-op on an empty value (the `if (frm.doc.purchase_receipt)` /
`if (frm.doc.purchase_invoice)` guards, lines 470 and 487), so only the
field update itself is modelled. -/
def AssetForm.clear_reference (frm : AssetForm) (field : String) : AssetForm :=
  if field = "purchase_receipt" then { frm with purchase_receipt := "" }
  else if field = "purchase_invoice" then { frm with purchase_invoice := "" }
  else frm

/-- `set_values_from_purchase_doc` (asset.js lines 502-532), synchronous
part.  Returns the form state, the modal messages shown and the item code
of the pending `frappe.db.get_value('Item', ...)` request when one was
issued.  When no item of the purchase document matches the form item
code, the source clears the reference field and shows the "does not
contain" message but has no early return: the next statement reads
`item.item_code` of `undefined` and throws a TypeError (modelled by
`JsResult.thrown`), so the `get_value` callback that would update
`gross_purchase_amount`, `purchase_receipt_amount` and `asset_quantity`
(lines 522-531) never runs. -/
def set_values_from_purchase_doc (frm : AssetForm) (doctype : String)
    (purchase_doc : PurchaseDoc) :
    JsResult (AssetForm × List Msg × Option String) :=
  let frm1 := { frm with company := purchase_doc.company }
  let frm2 :=
    match purchase_doc.bill_date with
    | some d => { frm1 with purchase_date := d }
    | none => { frm1 with purchase_date := purchase_doc.posting_date }
  let frm3 :=
    if ¬ frm2.is_existing_asset ∧ frm2.available_for_use_date = none then
      { frm2 with available_for_use_date := some frm2.purchase_date }
    else frm2
  match purchase_doc.items.find? (fun item => item.item_code = frm3.item_code) with
  | none =>
    let frm4 := frm3.clear_reference (scrub doctype)
    JsResult.thrown "TypeError: item is undefined"
      (frm4,
       [Msg.mk ("Invalid " ++ doctype)
         ("The selected " ++ doctype ++
           " does not contain the selected Asset Item.")],
       none)
  | some item =>
    JsResult.ok (frm3, [], some item.item_code)

/-- The `purchase_receipt` field-change handler (asset.js lines 468-483),
synchronous part.  The `frm.trigger('toggle_reference_doc')` call toggles
only display properties (requiredness and read-only flags) and touches
none of the modelled fields.  Returns the form, the modal messages shown
and the pending `frappe.db.get_doc` request (doctype, name) when one was
issued. -/
def purchase_receipt_handler (frm : AssetForm) :
    AssetForm × List Msg × Option (String × String) :=
  if frm.purchase_receipt ≠ "" then
    if frm.item_code ≠ "" then
      (frm, [], some ("Purchase Receipt", frm.purchase_receipt))
    else
      ({ frm with purchase_receipt := "" },
       [Msg.mk "Not Allowed" "Please select Item Code first"], none)
  else (frm, [], none)

/-- The `purchase_invoice` field-change handler (asset.js lines 485-500),
synchronous part; symmetric to `purchase_receipt_handler`. -/
def purchase_invoice_handler (frm : AssetForm) :
    AssetForm × List Msg × Option (String × String) :=
  if frm.purchase_invoice ≠ "" then
    if frm.item_code ≠ "" then
      (frm, [], some ("Purchase Invoice", frm.purchase_invoice))
    else
      ({ frm with purchase_invoice := "" },
       [Msg.mk "Not Allowed" "Please select Item Code first"], none)
  else (frm, [], none)

/-- Row of the `finance_books` child table with the fields the
salvage-value and depreciation-rate handlers read or write. -/
structure DeprRow where
  expected_value_after_useful_life : ℚ
  salvage_value_percentage : ℚ
  rate_of_depreciation : ℚ
deriving DecidableEq

/-- The two transient suppression flags on `frappe.flags` used by the
Asset Finance Book handlers. -/
structure Flags where
  from_set_salvage_value_percentage_or_expected_value_after_useful_life : Bool
  dont_change_rate : Bool
deriving DecidableEq

/-- The form state the claim-C5 handlers operate on: the gross purchase
amount, one finance-book row and the `frappe.flags` suppression flags. -/
structure FBFormState where
  gross_purchase_amount : ℚ
  row : DeprRow
  flags : Flags
deriving DecidableEq

mutual

/-- `set_salvage_value_percentage_or_expected_value_after_useful_life`
(asset.js lines 552-564): set the suppression flag, programmatically
update the mirrored field via `frappe.model.set_value` (which
synchronously triggers that field's change handler), then clear the
flag.  `fuel` bounds the nesting depth of handler invocations; the
suppression flag stops the nesting at depth two, so any fuel of at least
two reproduces the JavaScript behaviour. -/
def set_salvage_value_percentage_or_expected_value_after_useful_life
    (p_svp p_gross : ℕ) :
    ℕ → FBFormState → Bool → Bool → FBFormState
  | 0, s, _, _ => s
  | fuel + 1, s, salvage_value_percentage_changed,
      expected_value_after_useful_life_changed =>
    if expected_value_after_useful_life_changed then
      let s1 := { s with flags := { s.flags with
        from_set_salvage_value_percentage_or_expected_value_after_useful_life :=
          true } }
      let new_salvage_value_percentage :=
        fltPrec ((s1.row.expected_value_after_useful_life * 100) /
          s1.gross_purchase_amount) p_svp
      let s2 := salvage_value_percentage_handler p_svp p_gross fuel
        { s1 with row := { s1.row with
          salvage_value_percentage := new_salvage_value_percentage } }
      { s2 with flags := { s2.flags with
        from_set_salvage_value_percentage_or_expected_value_after_useful_life :=
          false } }
    else if salvage_value_percentage_changed then
      let s1 := { s with flags := { s.flags with
        from_set_salvage_value_percentage_or_expected_value_after_useful_life :=
          true } }
      let new_expected_value_after_useful_life :=
        fltPrec (s1.gross_purchase_amount *
          (s1.row.salvage_value_percentage / 100)) p_gross
      let s2 := expected_value_after_useful_life_handler p_svp p_gross fuel
        { s1 with row := { s1.row with
          expected_value_after_useful_life :=
            new_expected_value_after_useful_life } }
      { s2 with flags := { s2.flags with
        from_set_salvage_value_percentage_or_expected_value_after_useful_life :=
          false } }
    else s

/-- The `expected_value_after_useful_life` change handler on
`Asset Finance Book` (asset.js lines 574-580), run after the row field
already holds the new value: when the suppression flag is unset it
mirrors the value into `salvage_value_percentage`.  The trailing
`set_depreciation_rate` call (line 579) only issues an asynchronous
server call and changes no modelled state; its callback is
`set_depreciation_rate_callback`. -/
def expected_value_after_useful_life_handler (p_svp p_gross : ℕ) :
    ℕ → FBFormState → FBFormState
  | 0, s => s
  | fuel + 1, s =>
    if s.flags.from_set_salvage_value_percentage_or_expected_value_after_useful_life
        = false then
      set_salvage_value_percentage_or_expected_value_after_useful_life
        p_svp p_gross fuel s false true
    else s

/-- The `salvage_value_percentage` change handler (asset.js lines
582-587), run after the row field already holds the new value: when the
suppression flag is unset it mirrors the value into
`expected_value_after_useful_life`. -/
def salvage_value_percentage_handler (p_svp p_gross : ℕ) :
    ℕ → FBFormState → FBFormState
  | 0, s => s
  | fuel + 1, s =>
    if s.flags.from_set_salvage_value_percentage_or_expected_value_after_useful_life
        = false then
      set_salvage_value_percentage_or_expected_value_after_useful_life
        p_svp p_gross fuel s true false
    else s

/-- The `rate_of_depreciation` change handler (asset.js lines 599-605):
unless `dont_change_rate` is set it resets
`expected_value_after_useful_life` to 0 via `frappe.model.set_value`
(synchronously triggering that field's handler); it then always clears
`dont_change_rate`. -/
def rate_of_depreciation_handler (p_svp p_gross : ℕ) :
    ℕ → FBFormState → FBFormState
  | 0, s => s
  | fuel + 1, s =>
    let s1 :=
      if s.flags.dont_change_rate = false then
        expected_value_after_useful_life_handler p_svp p_gross fuel
          { s with row := { s.row with expected_value_after_useful_life := 0 } }
      else s
    { s1 with flags := { s1.flags with dont_change_rate := false } }

end

/-- The callback of `set_depreciation_rate` (asset.js lines 541-547): when
the server answers a truthy rate `r`, set `dont_change_rate` and
programmatically update `rate_of_depreciation` to `flt(r, precision)` via
`frappe.model.set_value`, synchronously triggering the
`rate_of_depreciation` change handler. -/
def set_depreciation_rate_callback (p_svp p_gross p_rate : ℕ) (fuel : ℕ)
    (r : ℚ) (s : FBFormState) : FBFormState :=
  if r ≠ 0 then
    let s1 := { s with flags := { s.flags with dont_change_rate := true } }
    rate_of_depreciation_handler p_svp p_gross fuel
      { s1 with row := { s1.row with rate_of_depreciation := fltPrec r p_rate } }
  else s

/-- The "Manage" buttons offered by the Asset form `refresh` handler for a
submitted document (asset.js lines 80-143), in the order they are added,
as a function of the document fields the branches read.
`purchase_receipt = ""` is an unset link field; `maintenance_schedule` is
`true` when the maintenance-schedule link is set. -/
def asset_manage_buttons (docstatus : ℕ) (status : String)
    (maintenance_required : Bool) (maintenance_schedule : Bool)
    (calculate_depreciation : Bool) (purchase_receipt : String)
    (is_existing_asset : Bool) : List String :=
  if docstatus = 1 then
    (if status ∈ ["Submitted", "Partially Depreciated", "Fully Depreciated"] then
      ["Transfer Asset", "Scrap Asset", "Sell Asset"]
     else if status = "Scrapped" then ["Restore Asset"]
     else [])
    ++ (if maintenance_required ∧ ¬ maintenance_schedule then
          ["Maintain Asset"] else [])
    ++ ["Repair Asset", "Split Asset"]
    ++ (if status ≠ "Fully Depreciated" then ["Adjust Asset Value"] else [])
    ++ (if ¬ calculate_depreciation then ["Create Depreciation Entry"] else [])
    ++ (if purchase_receipt ≠ "" ∨ ¬ is_existing_asset then
          ["View General Ledger"] else [])
  else []

/-- The five status values enumerated by the claim (spec section 3). -/
def C6_claim_statuses : List String :=
  ["Draft", "Submitted", "Scrapped", "Sold", "Fully Depreciated"]

/-- The six status values the Asset form code actually branches on:
the claimed five plus "Partially Depreciated" (asset.js line 81). -/
def C6_amended_statuses : List String :=
  ["Draft", "Submitted", "Partially Depreciated", "Scrapped", "Sold",
   "Fully Depreciated"]

/-- The "Status" buttons offered by `SalesOrderController.refresh` for a
Sales Order (lines 869-902 of the Sales Order script), in the order they
are added.  The source compares `flt(doc.per_delivered, 6) < 100` but
`flt(doc.per_billed) < 100` with no precision argument (lines 878 and
896), so `per_billed` enters unrounded. -/
def sales_order_status_buttons (docstatus : ℕ) (status : String)
    (has_perm_submit : Bool) (per_delivered per_billed : ℚ) : List String :=
  if docstatus = 1 then
    (if has_perm_submit then
      if status = "On Hold" then
        ["Resume"] ++
          (if fltPrec per_delivered 6 < 100 ∨ per_billed < 100 then ["Close"]
           else [])
      else if status = "Closed" then ["Re-open"]
      else []
     else [])
    ++ (if status ≠ "Closed" then
          if status ≠ "On Hold" then
            if has_perm_submit then
              if fltPrec per_delivered 6 < 100 ∨ per_billed < 100 then
                ["Hold", "Close"]
              else []
            else []
          else []
        else [])
  else []

/-- An item row of a Sales Order, with the fields
`make_purchase_order` reads. -/
structure SalesOrderItem where
  stock_qty : ℚ
  ordered_qty : ℚ
deriving DecidableEq

/-- `SalesOrderController.make_purchase_order` (lines 1310-1317 of the
Sales Order script), up to the decision between raising the
"already created" error and opening the item-selection dialog.
`Except.error` is the `frappe.throw` modal, which aborts the handler so
that no dialog is built; `Except.ok ()` stands for the item-selection
dialog being built and shown. -/
def make_purchase_order (items : List SalesOrderItem) : Except Msg Unit :=
  let pending_items := items.any (fun item =>
    decide (0 < item.stock_qty - item.ordered_qty))
  if ¬ pending_items then
    Except.error (Msg.mk "Note"
      "Purchase Order already created for all Sales Order items")
  else Except.ok ()

/-- `frm.toggle_reqd(fieldname, v)`: the form requiredness map after
toggling one field. -/
def toggle_reqd (reqd : String → Bool) (fieldname : String) (v : Bool) :
    String → Bool :=
  fun f => if f = fieldname then v else reqd f

/-- The `is_sandbox` change handler of the TaxJar Settings form
(taxjar_settings.js lines 5-8): require `api_key` exactly when
`is_sandbox` is unset and `sandbox_api_key` exactly when it is set. -/
def is_sandbox_handler (is_sandbox : Bool) (reqd : String → Bool) :
    String → Bool :=
  toggle_reqd (toggle_reqd reqd "api_key" (! is_sandbox))
    "sandbox_api_key" is_sandbox


theorem set_accumulated_depreciation_go_nil (fbid : Nat) (acc : ℚ) :
    set_accumulated_depreciation_go fbid acc [] = [] := rfl

theorem set_accumulated_depreciation_go_cons_pos (fbid : Nat) (acc : ℚ)
    (row : ScheduleRow) (rest : List ScheduleRow)
    (h : row.finance_book_id = fbid) :
    set_accumulated_depreciation_go fbid acc (row :: rest) =
      { row with accumulated_depreciation_amount := acc + row.depreciation_amount } ::
        set_accumulated_depreciation_go fbid (acc + row.depreciation_amount) rest := by
  simp [set_accumulated_depreciation_go, h]

theorem set_accumulated_depreciation_go_cons_neg (fbid : Nat) (acc : ℚ)
    (row : ScheduleRow) (rest : List ScheduleRow)
    (h : ¬ row.finance_book_id = fbid) :
    set_accumulated_depreciation_go fbid acc (row :: rest) =
      row :: set_accumulated_depreciation_go fbid acc rest := by
  simp [set_accumulated_depreciation_go, h]

theorem set_accumulated_depreciation_go_length (fbid : Nat) :
    ∀ (schedules : List ScheduleRow) (acc : ℚ),
      (set_accumulated_depreciation_go fbid acc schedules).length = schedules.length := by
  intro schedules
  induction schedules with
  | nil => intro acc; rfl
  | cons row rest ih =>
    intro acc
    by_cases h : row.finance_book_id = fbid
    · rw [set_accumulated_depreciation_go_cons_pos fbid acc row rest h]
      simp [ih]
    · rw [set_accumulated_depreciation_go_cons_neg fbid acc row rest h]
      simp [ih]

theorem set_accumulated_depreciation_go_get (fbid : Nat) :
    ∀ (schedules : List ScheduleRow) (acc : ℚ) (i : ℕ)
      (h1 : i < (set_accumulated_depreciation_go fbid acc schedules).length)
      (h2 : i < schedules.length),
      (set_accumulated_depreciation_go fbid acc schedules).get ⟨i, h1⟩ =
        (if (schedules.get ⟨i, h2⟩).finance_book_id = fbid then
          { schedules.get ⟨i, h2⟩ with accumulated_depreciation_amount :=
              acc + (((schedules.take (i + 1)).filter
                  (fun s => s.finance_book_id = fbid)).map
                (fun s => s.depreciation_amount)).sum }
        else schedules.get ⟨i, h2⟩) := by
  intro schedules
  induction schedules with
  | nil => intro acc i h1 h2; exact absurd h2 (by simp)
  | cons row rest ih =>
    intro acc i h1 h2
    by_cases hp : row.finance_book_id = fbid
    · cases i with
      | zero =>
        simp [set_accumulated_depreciation_go_cons_pos fbid acc row rest hp, hp,
          List.filter_cons_of_pos]
      | succ i =>
        have h1r : i < (set_accumulated_depreciation_go fbid
            (acc + row.depreciation_amount) rest).length := by
          rw [set_accumulated_depreciation_go_length]
          simpa using h2
        have h2r : i < rest.length := by simpa using h2
        have step := set_accumulated_depreciation_go_cons_pos fbid acc row rest hp
        have lhs_eq : (set_accumulated_depreciation_go fbid acc (row :: rest)).get ⟨i + 1, h1⟩ =
            (set_accumulated_depreciation_go fbid
              (acc + row.depreciation_amount) rest).get ⟨i, h1r⟩ := by
          simp [step]
        rw [lhs_eq, ih (acc + row.depreciation_amount) i h1r h2r]
        simp [List.take_succ_cons, List.filter_cons_of_pos, hp, add_assoc]
    · cases i with
      | zero =>
        simp [set_accumulated_depreciation_go_cons_neg fbid acc row rest hp, hp]
      | succ i =>
        have h1r : i < (set_accumulated_depreciation_go fbid acc rest).length := by
          rw [set_accumulated_depreciation_go_length]
          simpa using h2
        have h2r : i < rest.length := by simpa using h2
        have step := set_accumulated_depreciation_go_cons_neg fbid acc row rest hp
        have lhs_eq : (set_accumulated_depreciation_go fbid acc (row :: rest)).get ⟨i + 1, h1⟩ =
            (set_accumulated_depreciation_go fbid acc rest).get ⟨i, h1r⟩ := by
          simp [step]
        rw [lhs_eq, ih acc i h1r h2r]
        simp [List.take_succ_cons, List.filter_cons_of_neg, hp]

theorem set_accumulated_depreciation_go_spec (fbid : Nat) (acc : ℚ)
    (schedules : List ScheduleRow) :
    set_accumulated_depreciation_go fbid acc schedules =
      schedules.mapIdx (fun i row =>
        if row.finance_book_id = fbid then
          { row with accumulated_depreciation_amount :=
              acc + (((schedules.take (i + 1)).filter
                  (fun s => s.finance_book_id = fbid)).map
                (fun s => s.depreciation_amount)).sum }
        else row) := by
  apply List.ext_get
  · rw [set_accumulated_depreciation_go_length, List.length_mapIdx]
  · intro i h1 h2
    have hs : i < schedules.length := by
      rw [set_accumulated_depreciation_go_length] at h1
      exact h1
    rw [List.get_mapIdx schedules _ i hs]
    exact set_accumulated_depreciation_go_get fbid schedules acc i h1 hs

/-- Claim C1: when the finance book at index `finance_book_id - 1` has
depreciation method "Manual", `set_accumulated_depreciation` gives every
schedule row of that finance book an accumulated amount equal to the
opening accumulated depreciation plus the sum of the depreciation amounts
of the rows of the same finance book up to and including that row, in list
order, leaving other rows unchanged; when the method is not "Manual" it
changes no schedule row. -/
theorem C1_set_accumulated_depreciation_running_total
    (finance_books : List FinanceBook) (opening : ℚ)
    (schedules : List ScheduleRow) (finance_book_id : Nat) (fb : FinanceBook)
    (h0 : finance_book_id ≠ 0)
    (hfb : finance_books[finance_book_id - 1]? = some fb) :
    set_accumulated_depreciation finance_books opening schedules finance_book_id =
      some (if fb.depreciation_method = "Manual" then
              C1_spec_result opening schedules finance_book_id
            else schedules) := by
  unfold set_accumulated_depreciation
  rw [if_neg h0, hfb, Option.map_some']
  by_cases hm : fb.depreciation_method = "Manual"
  · simp only [hm, ne_eq, not_true_eq_false, if_false, if_true]
    rw [set_accumulated_depreciation_go_spec]
    rfl
  · simp only [ne_eq, hm, not_false_eq_true, if_true, if_false]

/-- Witness for claim C1 at a concrete input. -/
theorem C1_witness :
    set_accumulated_depreciation [⟨"Manual", 0, 1⟩] 5
        [⟨10, 2, 0, false, 1⟩, ⟨20, 3, 0, false, 2⟩, ⟨30, 4, 0, false, 1⟩] 1 =
      some (if ("Manual" : String) = "Manual" then
              C1_spec_result 5
                [⟨10, 2, 0, false, 1⟩, ⟨20, 3, 0, false, 2⟩, ⟨30, 4, 0, false, 1⟩] 1
            else [⟨10, 2, 0, false, 1⟩, ⟨20, 3, 0, false, 2⟩, ⟨30, 4, 0, false, 1⟩]) :=
  C1_set_accumulated_depreciation_running_total [⟨"Manual", 0, 1⟩] 5
    [⟨10, 2, 0, false, 1⟩, ⟨20, 3, 0, false, 2⟩, ⟨30, 4, 0, false, 1⟩] 1
    ⟨"Manual", 0, 1⟩ (by decide) rfl

theorem scheduleChartPoint_eq_spec (a : Asset) (prec : ℕ) (r : ScheduleRow) :
    scheduleChartPoint a prec r = C2_spec_point a prec r := by
  unfold scheduleChartPoint C2_spec_point
  cases hj : r.journal_entry <;>
    by_cases hs : a.status = "Scrapped" ∨ a.status = "Sold" <;> simp [hj, hs]

/-- Claim C2: for an asset with `calculate_depreciation` and at most one
finance book, the asset-value series built by `setup_chart` consists of
the gross purchase amount, the optional opening point, one contribution
per schedule row equal to the gross purchase amount minus the row
accumulated depreciation (rounded to the precision of
`gross_purchase_amount`) except that a row without a journal entry
contributes null when the status is "Scrapped" or "Sold", and, when the
status is "Scrapped" or "Sold", a final point at the disposal date with
value 0. -/
theorem C2_setup_chart_schedule_contributions
    (a : Asset) (prec : ℕ) (addMonths : Int → Int → Int)
    (depr_entries : List DeprEntry)
    (hc : a.calculate_depreciation = true)
    (hfb : a.finance_books.length ≤ 1)
    (hop : a.opening_accumulated_depreciation ≠ 0 → a.finance_books ≠ []) :
    (setup_chart a prec addMonths depr_entries).map (fun p => p.2) =
      some ([some a.gross_purchase_amount]
        ++ (if a.opening_accumulated_depreciation ≠ 0 then
              [some (fltPrec (a.gross_purchase_amount -
                a.opening_accumulated_depreciation) prec)]
            else [])
        ++ a.schedules.map (C2_spec_point a prec)
        ++ (if a.status = "Scrapped" ∨ a.status = "Sold" then [some 0] else [])) ∧
    ((a.status = "Scrapped" ∨ a.status = "Sold") →
      (setup_chart a prec addMonths depr_entries).map (fun p => p.1.getLast?) =
        some (some a.disposal_date)) := by
  have hmap : a.schedules.map (scheduleChartPoint a prec) =
      a.schedules.map (C2_spec_point a prec) :=
    List.map_congr_left (fun r _ => scheduleChartPoint_eq_spec a prec r)
  have hlen : ¬ 1 < a.finance_books.length := by omega
  by_cases ho : a.opening_accumulated_depreciation = 0
  · constructor
    · by_cases hs : a.status = "Scrapped" ∨ a.status = "Sold" <;>
        simp [setup_chart, hlen, hc, ho, hs, hmap, List.append_assoc]
    · intro hs
      simp [setup_chart, hlen, hc, ho, hs, List.getLast?_cons]
  · obtain ⟨fb, hl⟩ : ∃ fb, a.finance_books = [fb] := by
      cases hfbs : a.finance_books with
      | nil => exact absurd hfbs (hop ho)
      | cons fb t =>
        rw [hfbs] at hfb
        simp only [List.length_cons] at hfb
        have ht : t = [] := List.length_eq_zero.mp (by omega)
        subst ht
        exact ⟨fb, rfl⟩
    constructor
    · by_cases hs : a.status = "Scrapped" ∨ a.status = "Sold" <;>
        simp [setup_chart, hlen, hc, ho, hs, hl, hmap, List.append_assoc]
    · intro hs
      simp [setup_chart, hlen, hc, ho, hs, hl, List.getLast?_cons]

/-- Witness for claim C2 at a concrete input. -/
theorem C2_witness :
    ((setup_chart (Asset.mk 100 0 true "Sold" 0 99 1
        [FinanceBook.mk "Straight Line" 50 12]
        [ScheduleRow.mk 50 10 20 true 1, ScheduleRow.mk 60 10 30 false 1]) 2
        (fun d m => d + 31 * m) []).map (fun p => p.2) =
      some ([some (100 : ℚ)]
        ++ (if (0 : ℚ) ≠ 0 then [some (fltPrec ((100 : ℚ) - 0) 2)] else [])
        ++ [ScheduleRow.mk 50 10 20 true 1, ScheduleRow.mk 60 10 30 false 1].map
            (C2_spec_point (Asset.mk 100 0 true "Sold" 0 99 1
              [FinanceBook.mk "Straight Line" 50 12]
              [ScheduleRow.mk 50 10 20 true 1, ScheduleRow.mk 60 10 30 false 1]) 2)
        ++ (if ("Sold" : String) = "Scrapped" ∨ ("Sold" : String) = "Sold" then
              [some (0 : ℚ)] else []))) ∧
    ((("Sold" : String) = "Scrapped" ∨ ("Sold" : String) = "Sold") →
      (setup_chart (Asset.mk 100 0 true "Sold" 0 99 1
          [FinanceBook.mk "Straight Line" 50 12]
          [ScheduleRow.mk 50 10 20 true 1, ScheduleRow.mk 60 10 30 false 1]) 2
          (fun d m => d + 31 * m) []).map (fun p => p.1.getLast?) =
        some (some (99 : Int))) :=
  C2_setup_chart_schedule_contributions
    (Asset.mk 100 0 true "Sold" 0 99 1
      [FinanceBook.mk "Straight Line" 50 12]
      [ScheduleRow.mk 50 10 20 true 1, ScheduleRow.mk 60 10 30 false 1]) 2
    (fun d m => d + 31 * m) [] rfl (by decide) (fun h => absurd rfl h)

/-- Claim C9: with more than one finance book `setup_chart` returns
without rendering any graph, and its result does not depend on the
schedule rows (the early return precedes every read of them); a graph is
only ever rendered for an asset with at most one finance book. -/
theorem C9_setup_chart_multiple_finance_books
    (a b : Asset) (prec : ℕ) (addMonths : Int → Int → Int)
    (depr_entries : List DeprEntry)
    (ha : 1 < a.finance_books.length)
    (hb : setup_chart b prec addMonths depr_entries ≠ none)
    (s : List ScheduleRow) :
    setup_chart a prec addMonths depr_entries = none ∧
    setup_chart { a with schedules := s } prec addMonths depr_entries = none ∧
    b.finance_books.length ≤ 1 := by
  refine ⟨by simp [setup_chart, ha], by simp [setup_chart, ha], ?_⟩
  by_contra hlen
  push_neg at hlen
  exact hb (by simp [setup_chart, hlen])

/-- Witness for claim C9 at a concrete input. -/
theorem C9_witness :
    setup_chart (Asset.mk 100 0 true "Draft" 0 99 1
        [FinanceBook.mk "Straight Line" 50 12, FinanceBook.mk "Manual" 50 12]
        [ScheduleRow.mk 50 10 20 true 1]) 2 (fun d m => d + 31 * m) [] = none ∧
    setup_chart { Asset.mk 100 0 true "Draft" 0 99 1
        [FinanceBook.mk "Straight Line" 50 12, FinanceBook.mk "Manual" 50 12]
        [ScheduleRow.mk 50 10 20 true 1] with schedules := [] } 2
        (fun d m => d + 31 * m) [] = none ∧
    (Asset.mk 100 0 true "Draft" 0 99 1 [FinanceBook.mk "Straight Line" 50 12]
        []).finance_books.length ≤ 1 :=
  C9_setup_chart_multiple_finance_books
    (Asset.mk 100 0 true "Draft" 0 99 1
      [FinanceBook.mk "Straight Line" 50 12, FinanceBook.mk "Manual" 50 12]
      [ScheduleRow.mk 50 10 20 true 1])
    (Asset.mk 100 0 true "Draft" 0 99 1 [FinanceBook.mk "Straight Line" 50 12] [])
    2 (fun d m => d + 31 * m) [] (by decide) (by simp [setup_chart]) []

/-- Claim C3 concerns a code bug: on a purchase document containing no
item with the form item code, `set_values_from_purchase_doc` clears the
reference field and shows the modal message, but then throws a TypeError
(there is no early return before the `item.item_code` read on line 522)
instead of terminating normally.  The fields `gross_purchase_amount`,
`purchase_receipt_amount` and `asset_quantity` stay unchanged because the
`get_value` request is never issued. -/
theorem C3_missing_item_throws :
    set_values_from_purchase_doc
      (AssetForm.mk "Old Co" 5 none false "ITEM-A" "PR-0001" "" 100 100 1
        "CC-Old" "LOC-Old")
      "Purchase Receipt"
      (PurchaseDoc.mk "New Co" none 7
        [PurchaseDocItem.mk "ITEM-B" 2 50 "CC-I" ""] "CC-PD") =
    JsResult.thrown "TypeError: item is undefined"
      (AssetForm.mk "New Co" 7 (some 7) false "ITEM-A" "" "" 100 100 1
        "CC-Old" "LOC-Old",
       [Msg.mk "Invalid Purchase Receipt"
         "The selected Purchase Receipt does not contain the selected Asset Item."],
       none) := by
  decide

/-- Claim C4: with the reference field set and `item_code` empty, the
`purchase_receipt` (respectively `purchase_invoice`) handler resets the
reference field to the empty string, shows the "Please select Item Code
first" modal and fetches no purchase document; with `item_code` set, no
message is shown and the reference field is not cleared. -/
theorem C4_reference_doc_requires_item_code (f g : AssetForm)
    (hfr : f.purchase_receipt ≠ "") (hfi : f.purchase_invoice ≠ "")
    (hfc : f.item_code = "") (hgc : g.item_code ≠ "") :
    purchase_receipt_handler f =
      ({ f with purchase_receipt := "" },
       [Msg.mk "Not Allowed" "Please select Item Code first"], none) ∧
    purchase_invoice_handler f =
      ({ f with purchase_invoice := "" },
       [Msg.mk "Not Allowed" "Please select Item Code first"], none) ∧
    (purchase_receipt_handler g).2.1 = [] ∧
    (purchase_receipt_handler g).1.purchase_receipt = g.purchase_receipt ∧
    (purchase_invoice_handler g).2.1 = [] ∧
    (purchase_invoice_handler g).1.purchase_invoice = g.purchase_invoice := by
  refine ⟨?_, ?_, ?_, ?_, ?_, ?_⟩
  · simp [purchase_receipt_handler, hfr, hfc]
  · simp [purchase_invoice_handler, hfi, hfc]
  · by_cases hgr : g.purchase_receipt = "" <;>
      simp [purchase_receipt_handler, hgr, hgc]
  · by_cases hgr : g.purchase_receipt = "" <;>
      simp [purchase_receipt_handler, hgr, hgc]
  · by_cases hgi : g.purchase_invoice = "" <;>
      simp [purchase_invoice_handler, hgi, hgc]
  · by_cases hgi : g.purchase_invoice = "" <;>
      simp [purchase_invoice_handler, hgi, hgc]

/-- Witness for claim C4 at concrete inputs. -/
theorem C4_witness :
    purchase_receipt_handler
      (AssetForm.mk "Co" 5 none false "" "PR-0001" "PI-0001" 100 100 1 "" "") =
      ({ AssetForm.mk "Co" 5 none false "" "PR-0001" "PI-0001" 100 100 1 "" ""
          with purchase_receipt := "" },
       [Msg.mk "Not Allowed" "Please select Item Code first"], none) ∧
    purchase_invoice_handler
      (AssetForm.mk "Co" 5 none false "" "PR-0001" "PI-0001" 100 100 1 "" "") =
      ({ AssetForm.mk "Co" 5 none false "" "PR-0001" "PI-0001" 100 100 1 "" ""
          with purchase_invoice := "" },
       [Msg.mk "Not Allowed" "Please select Item Code first"], none) ∧
    (purchase_receipt_handler
      (AssetForm.mk "Co" 5 none false "ITEM-A" "PR-0001" "" 100 100 1 "" "")).2.1 = [] ∧
    (purchase_receipt_handler
      (AssetForm.mk "Co" 5 none false "ITEM-A" "PR-0001" "" 100 100 1 "" "")).1.purchase_receipt =
      (AssetForm.mk "Co" 5 none false "ITEM-A" "PR-0001" "" 100 100 1 "" "").purchase_receipt ∧
    (purchase_invoice_handler
      (AssetForm.mk "Co" 5 none false "ITEM-A" "PR-0001" "" 100 100 1 "" "")).2.1 = [] ∧
    (purchase_invoice_handler
      (AssetForm.mk "Co" 5 none false "ITEM-A" "PR-0001" "" 100 100 1 "" "")).1.purchase_invoice =
      (AssetForm.mk "Co" 5 none false "ITEM-A" "PR-0001" "" 100 100 1 "" "").purchase_invoice :=
  C4_reference_doc_requires_item_code
    (AssetForm.mk "Co" 5 none false "" "PR-0001" "PI-0001" 100 100 1 "" "")
    (AssetForm.mk "Co" 5 none false "ITEM-A" "PR-0001" "" 100 100 1 "" "")
    (by decide) (by decide) (by decide) (by decide)

/-- Claim C5: the re-entrancy suppression flags are transient and
effective.  Running the `expected_value_after_useful_life` handler
(respectively the `salvage_value_percentage` handler) from a state with
the suppression flag unset updates only the mirrored field — the nested
invocation of the mirrored handler runs with the flag set and performs no
second update — and leaves the flag unset afterwards.  A
`rate_of_depreciation` update performed by the `set_depreciation_rate`
callback, guarded by `dont_change_rate`, never resets
`expected_value_after_useful_life` to 0, and `dont_change_rate` is
cleared after the handler runs. -/
theorem C5_reentrancy_flags_transient (p_svp p_gross p_rate : ℕ)
    (s : FBFormState) (r : ℚ)
    (hflag : s.flags.from_set_salvage_value_percentage_or_expected_value_after_useful_life
      = false)
    (hr : r ≠ 0) :
    ((expected_value_after_useful_life_handler p_svp p_gross 3 s).row.expected_value_after_useful_life
        = s.row.expected_value_after_useful_life ∧
      (expected_value_after_useful_life_handler p_svp p_gross 3 s).row.salvage_value_percentage
        = fltPrec ((s.row.expected_value_after_useful_life * 100) /
            s.gross_purchase_amount) p_svp ∧
      (expected_value_after_useful_life_handler p_svp p_gross 3 s).flags.from_set_salvage_value_percentage_or_expected_value_after_useful_life
        = false ∧
      (expected_value_after_useful_life_handler p_svp p_gross 3 s).row.rate_of_depreciation
        = s.row.rate_of_depreciation) ∧
    ((salvage_value_percentage_handler p_svp p_gross 3 s).row.salvage_value_percentage
        = s.row.salvage_value_percentage ∧
      (salvage_value_percentage_handler p_svp p_gross 3 s).row.expected_value_after_useful_life
        = fltPrec (s.gross_purchase_amount *
            (s.row.salvage_value_percentage / 100)) p_gross ∧
      (salvage_value_percentage_handler p_svp p_gross 3 s).flags.from_set_salvage_value_percentage_or_expected_value_after_useful_life
        = false) ∧
    ((set_depreciation_rate_callback p_svp p_gross p_rate 3 r s).row.expected_value_after_useful_life
        = s.row.expected_value_after_useful_life ∧
      (set_depreciation_rate_callback p_svp p_gross p_rate 3 r s).flags.dont_change_rate
        = false ∧
      (set_depreciation_rate_callback p_svp p_gross p_rate 3 r s).row.rate_of_depreciation
        = fltPrec r p_rate) := by
  refine ⟨⟨?_, ?_, ?_, ?_⟩, ⟨?_, ?_, ?_⟩, ⟨?_, ?_, ?_⟩⟩ <;>
    simp [expected_value_after_useful_life_handler,
      salvage_value_percentage_handler,
      set_salvage_value_percentage_or_expected_value_after_useful_life,
      rate_of_depreciation_handler, set_depreciation_rate_callback, hflag, hr]

/-- Witness for claim C5 at a concrete input. -/
theorem C5_witness :
    ((expected_value_after_useful_life_handler 2 2 3
        (FBFormState.mk 200 (DeprRow.mk 40 0 5)
          (Flags.mk false false))).row.expected_value_after_useful_life
        = (FBFormState.mk 200 (DeprRow.mk 40 0 5)
            (Flags.mk false false)).row.expected_value_after_useful_life ∧
      (expected_value_after_useful_life_handler 2 2 3
        (FBFormState.mk 200 (DeprRow.mk 40 0 5)
          (Flags.mk false false))).row.salvage_value_percentage
        = fltPrec (((FBFormState.mk 200 (DeprRow.mk 40 0 5)
            (Flags.mk false false)).row.expected_value_after_useful_life * 100) /
            (FBFormState.mk 200 (DeprRow.mk 40 0 5)
              (Flags.mk false false)).gross_purchase_amount) 2 ∧
      (expected_value_after_useful_life_handler 2 2 3
        (FBFormState.mk 200 (DeprRow.mk 40 0 5)
          (Flags.mk false false))).flags.from_set_salvage_value_percentage_or_expected_value_after_useful_life
        = false ∧
      (expected_value_after_useful_life_handler 2 2 3
        (FBFormState.mk 200 (DeprRow.mk 40 0 5)
          (Flags.mk false false))).row.rate_of_depreciation
        = (FBFormState.mk 200 (DeprRow.mk 40 0 5)
            (Flags.mk false false)).row.rate_of_depreciation) ∧
    ((salvage_value_percentage_handler 2 2 3
        (FBFormState.mk 200 (DeprRow.mk 40 0 5)
          (Flags.mk false false))).row.salvage_value_percentage
        = (FBFormState.mk 200 (DeprRow.mk 40 0 5)
            (Flags.mk false false)).row.salvage_value_percentage ∧
      (salvage_value_percentage_handler 2 2 3
        (FBFormState.mk 200 (DeprRow.mk 40 0 5)
          (Flags.mk false false))).row.expected_value_after_useful_life
        = fltPrec ((FBFormState.mk 200 (DeprRow.mk 40 0 5)
            (Flags.mk false false)).gross_purchase_amount *
            ((FBFormState.mk 200 (DeprRow.mk 40 0 5)
              (Flags.mk false false)).row.salvage_value_percentage / 100)) 2 ∧
      (salvage_value_percentage_handler 2 2 3
        (FBFormState.mk 200 (DeprRow.mk 40 0 5)
          (Flags.mk false false))).flags.from_set_salvage_value_percentage_or_expected_value_after_useful_life
        = false) ∧
    ((set_depreciation_rate_callback 2 2 3 3 10
        (FBFormState.mk 200 (DeprRow.mk 40 0 5)
          (Flags.mk false false))).row.expected_value_after_useful_life
        = (FBFormState.mk 200 (DeprRow.mk 40 0 5)
            (Flags.mk false false)).row.expected_value_after_useful_life ∧
      (set_depreciation_rate_callback 2 2 3 3 10
        (FBFormState.mk 200 (DeprRow.mk 40 0 5)
          (Flags.mk false false))).flags.dont_change_rate = false ∧
      (set_depreciation_rate_callback 2 2 3 3 10
        (FBFormState.mk 200 (DeprRow.mk 40 0 5)
          (Flags.mk false false))).row.rate_of_depreciation = fltPrec 10 3) :=
  C5_reentrancy_flags_transient 2 2 3
    (FBFormState.mk 200 (DeprRow.mk 40 0 5) (Flags.mk false false)) 10
    (by decide) (by decide)

/-- Counterexample to claim C6 as stated: the status
"Partially Depreciated" (branched on at asset.js line 81) and an arbitrary
status "Other" agree on every comparison with the claimed five-value
enumeration {Draft, Submitted, Scrapped, Sold, Fully Depreciated}, yet the
`refresh` handler offers different Manage buttons for them, so the five
values do not determine the status-dependent form behaviour. -/
theorem C6_counterexample :
    (∀ v ∈ C6_claim_statuses,
      (("Partially Depreciated" = v) ↔ ("Other" = v))) ∧
    asset_manage_buttons 1 "Partially Depreciated" false false false "" false ≠
      asset_manage_buttons 1 "Other" false false false "" false := by
  decide

/-- Claim C6 amended: with "Partially Depreciated" added to the
enumeration, every status value the Asset form code branches on lies in
the six-value set, and the status-dependent form behaviour (the Manage
buttons of `refresh` and the status branches of `setup_chart`) is fully
determined by how the status compares with those six values. -/
theorem C6_amended_status_enumeration (s t : String)
    (h : ∀ v ∈ C6_amended_statuses, (s = v ↔ t = v))
    (docstatus : ℕ)
    (maintenance_required maintenance_schedule calculate_depreciation : Bool)
    (purchase_receipt : String) (is_existing_asset : Bool)
    (a : Asset) (prec : ℕ) (addMonths : Int → Int → Int)
    (depr_entries : List DeprEntry) :
    asset_manage_buttons docstatus s maintenance_required maintenance_schedule
        calculate_depreciation purchase_receipt is_existing_asset =
      asset_manage_buttons docstatus t maintenance_required maintenance_schedule
        calculate_depreciation purchase_receipt is_existing_asset ∧
    setup_chart { a with status := s } prec addMonths depr_entries =
      setup_chart { a with status := t } prec addMonths depr_entries := by
  have hSub := h "Submitted" (by simp [C6_amended_statuses])
  have hPar := h "Partially Depreciated" (by simp [C6_amended_statuses])
  have hScr := h "Scrapped" (by simp [C6_amended_statuses])
  have hSol := h "Sold" (by simp [C6_amended_statuses])
  have hFul := h "Fully Depreciated" (by simp [C6_amended_statuses])
  constructor
  · simp only [asset_manage_buttons, List.mem_cons, List.not_mem_nil, or_false,
      ne_eq, hSub, hPar, hScr, hFul]
  · have hpoint : scheduleChartPoint { a with status := s } prec =
        scheduleChartPoint { a with status := t } prec := by
      funext r
      simp only [scheduleChartPoint, hScr, hSol]
    simp only [setup_chart, hScr, hSol, hpoint]

/-- Witness for the amended claim C6 at concrete inputs. -/
theorem C6_witness :
    asset_manage_buttons 1 "Foo" false false false "" false =
      asset_manage_buttons 1 "Bar" false false false "" false ∧
    setup_chart { Asset.mk 100 0 true "Draft" 0 99 1
        [FinanceBook.mk "Straight Line" 50 12] [] with status := "Foo" } 2
        (fun d m => d + 31 * m) [] =
      setup_chart { Asset.mk 100 0 true "Draft" 0 99 1
        [FinanceBook.mk "Straight Line" 50 12] [] with status := "Bar" } 2
        (fun d m => d + 31 * m) [] :=
  C6_amended_status_enumeration "Foo" "Bar" (by decide) 1 false false false
    "" false
    (Asset.mk 100 0 true "Draft" 0 99 1 [FinanceBook.mk "Straight Line" 50 12] [])
    2 (fun d m => d + 31 * m) []

/-- Claim C7: for a submitted Sales Order (docstatus 1) with submit
permission whose status is neither "Closed" nor "On Hold", `refresh`
offers the "Hold" and "Close" status buttons exactly when `per_delivered`
rounded to 6 decimal places is below 100 or `per_billed` is below 100;
for status "On Hold" it offers "Resume" and for "Closed" it offers
"Re-open". -/
theorem C7_sales_order_status_buttons_spec (s1 : String)
    (per_delivered per_billed : ℚ)
    (h1c : s1 ≠ "Closed") (h1h : s1 ≠ "On Hold") :
    (("Hold" ∈ sales_order_status_buttons 1 s1 true per_delivered per_billed ∧
      "Close" ∈ sales_order_status_buttons 1 s1 true per_delivered per_billed) ↔
      (fltPrec per_delivered 6 < 100 ∨ per_billed < 100)) ∧
    "Resume" ∈
      sales_order_status_buttons 1 "On Hold" true per_delivered per_billed ∧
    "Re-open" ∈
      sales_order_status_buttons 1 "Closed" true per_delivered per_billed := by
  refine ⟨?_, ?_, ?_⟩
  · by_cases hq : fltPrec per_delivered 6 < 100 ∨ per_billed < 100 <;>
      simp [sales_order_status_buttons, h1c, h1h, hq]
  · by_cases hq : fltPrec per_delivered 6 < 100 ∨ per_billed < 100 <;>
      simp [sales_order_status_buttons, hq]
  · simp [sales_order_status_buttons]

/-- Witness for claim C7 at a concrete input. -/
theorem C7_witness :
    (("Hold" ∈ sales_order_status_buttons 1 "To Deliver and Bill" true 0 0 ∧
      "Close" ∈ sales_order_status_buttons 1 "To Deliver and Bill" true 0 0) ↔
      (fltPrec 0 6 < 100 ∨ (0 : ℚ) < 100)) ∧
    "Resume" ∈ sales_order_status_buttons 1 "On Hold" true 0 0 ∧
    "Re-open" ∈ sales_order_status_buttons 1 "Closed" true 0 0 :=
  C7_sales_order_status_buttons_spec "To Deliver and Bill" 0 0
    (by decide) (by decide)

/-- Claim C8: `make_purchase_order` raises the
"Purchase Order already created for all Sales Order items" error and opens
no item-selection dialog exactly when every Sales Order item has
`stock_qty - ordered_qty ≤ 0`; when some item has a positive pending
quantity, no error is raised and the dialog is shown. -/
theorem C8_make_purchase_order_pending_items (items : List SalesOrderItem) :
    ((make_purchase_order items =
        Except.error (Msg.mk "Note"
          "Purchase Order already created for all Sales Order items")) ↔
      items.all (fun item =>
        decide (item.stock_qty - item.ordered_qty ≤ 0)) = true) ∧
    (items.all (fun item =>
        decide (item.stock_qty - item.ordered_qty ≤ 0)) = false →
      make_purchase_order items = Except.ok ()) := by
  have hpq : ∀ item : SalesOrderItem,
      decide (0 < item.stock_qty - item.ordered_qty) =
        ! decide (item.stock_qty - item.ordered_qty ≤ 0) := by
    intro item
    rw [← decide_not, decide_eq_decide]
    exact lt_iff_not_le
  have key : items.any (fun item =>
      decide (0 < item.stock_qty - item.ordered_qty)) =
      ! items.all (fun item =>
        decide (item.stock_qty - item.ordered_qty ≤ 0)) := by
    induction items with
    | nil => rfl
    | cons item rest ih =>
      simp only [List.any_cons, List.all_cons, ih, hpq item, Bool.not_and]
  have hmk : make_purchase_order items =
      (if items.all (fun item =>
          decide (item.stock_qty - item.ordered_qty ≤ 0)) then
        Except.error (Msg.mk "Note"
          "Purchase Order already created for all Sales Order items")
      else Except.ok ()) := by
    simp only [make_purchase_order, key]
    rcases Bool.eq_false_or_eq_true (items.all (fun item =>
        decide (item.stock_qty - item.ordered_qty ≤ 0))) with h | h <;>
      rw [h] <;> rfl
  constructor
  · rw [hmk]
    rcases Bool.eq_false_or_eq_true (items.all (fun item =>
        decide (item.stock_qty - item.ordered_qty ≤ 0))) with h | h <;>
      rw [h] <;> simp
  · intro h
    rw [hmk, h]
    rfl

/-- Witness for claim C8 at a concrete input. -/
theorem C8_witness :
    ((make_purchase_order [SalesOrderItem.mk 1 0] =
        Except.error (Msg.mk "Note"
          "Purchase Order already created for all Sales Order items")) ↔
      [SalesOrderItem.mk 1 0].all (fun item =>
        decide (item.stock_qty - item.ordered_qty ≤ 0)) = true) ∧
    make_purchase_order [SalesOrderItem.mk 1 0] = Except.ok () :=
  ⟨(C8_make_purchase_order_pending_items [SalesOrderItem.mk 1 0]).1,
   (C8_make_purchase_order_pending_items [SalesOrderItem.mk 1 0]).2 (by simp)⟩

/-- Claim C10: after the TaxJar Settings `is_sandbox` handler runs,
`api_key` is required exactly when `is_sandbox` is unset and
`sandbox_api_key` exactly when it is set — so exactly one of the two key
fields is required — and no other field's requiredness changes. -/
theorem C10_taxjar_sandbox_reqd_toggle (is_sandbox : Bool)
    (reqd : String → Bool) :
    is_sandbox_handler is_sandbox reqd "api_key" = (! is_sandbox) ∧
    is_sandbox_handler is_sandbox reqd "sandbox_api_key" = is_sandbox ∧
    is_sandbox_handler is_sandbox reqd "api_key" ≠
      is_sandbox_handler is_sandbox reqd "sandbox_api_key" ∧
    ∀ f, f ≠ "api_key" → f ≠ "sandbox_api_key" →
      is_sandbox_handler is_sandbox reqd f = reqd f := by
  refine ⟨?_, ?_, ?_, ?_⟩
  · simp [is_sandbox_handler, toggle_reqd]
  · simp [is_sandbox_handler, toggle_reqd]
  · cases is_sandbox <;> simp [is_sandbox_handler, toggle_reqd]
  · intro f hf1 hf2
    simp [is_sandbox_handler, toggle_reqd, hf1, hf2]

/-- Witness for claim C10 at a concrete input. -/
theorem C10_witness :
    is_sandbox_handler true (fun _ => false) "api_key" = (! true) ∧
    is_sandbox_handler true (fun _ => false) "sandbox_api_key" = true ∧
    is_sandbox_handler true (fun _ => false) "company" =
      (fun _ => false : String → Bool) "company" :=
  ⟨(C10_taxjar_sandbox_reqd_toggle true (fun _ => false)).1,
   (C10_taxjar_sandbox_reqd_toggle true (fun _ => false)).2.1,
   (C10_taxjar_sandbox_reqd_toggle true (fun _ => false)).2.2.2 "company"
     (by decide) (by decide)⟩
